import Mathlib

/-!
Verification of the channel registry and broadcast fan-out engine of the
Channel_manager repository (src/bot.py and src/main.py), as a shallow
embedding in Lean 4.

The registry is the ordered list of channel records ({"id", "title",
"username"} dicts in `data["channels"]` of bot.py / the `CHANNELS` module
list of main.py).  The broadcast loop iterates that list, calls the
transport send primitive once per channel, counts successes and failures,
and (in bot.py) accumulates a rendered failure entry per failing channel.
Transport effects (get_chat / get_chat_member / send_*) are abstracted as
explicit inputs: the admin-verification result as a `VerifyResult` value,
and the per-destination delivery as a `send` function returning
`Except String Unit` (a raised `TelegramError` is the `Except.error` case,
carrying `str(e)`).
-/

namespace ChannelManager

/-- A registered channel record, as stored by bot.py `add_channel`
(`channel_info = {"id": chat.id, "title": chat.title, "username": chat.username}`)
and read back by the other handlers.  `username` is the public alias and may
be absent (`None`). -/
structure Destination where
  id : Int
  title : String
  username : Option String
deriving DecidableEq, Repr

/-- The registry: the ordered list `data["channels"]` / `CHANNELS`. -/
abbrev Registry := List Destination

/-- The list `existing_ids = [c["id"] for c in data["channels"]]` of bot.py. -/
def registryIds (reg : Registry) : List Int := reg.map (fun c => c.id)

/-- The ways the add-channel handlers refuse a registration. -/
inductive AddError where
  | resolutionError (detail : String)
  | notAdmin
  | alreadyRegistered
deriving DecidableEq, Repr

/-- Result of the verification phase of `add_channel` / `addchannel_cmd`:
either the transport raised while resolving the chat or fetching the bot
membership (the `except TelegramError` / `except Exception` path), or it
resolved the chat record together with the bot's membership status string. -/
inductive VerifyResult where
  | failed (detail : String)
  | resolved (chat : Destination) (status : String)
deriving DecidableEq, Repr

/-- The admin check `member.status in ["administrator", "creator"]`. -/
def isAdminStatus (status : String) : Bool :=
  status == "administrator" || status == "creator"

/-- bot.py `add_channel` (lines 110-148) / main.py `addchannel_cmd`
(lines 161-215): verification failure aborts; a non-admin membership status
aborts with no mutation; a duplicate `id` (membership of `chat.id` in
`existing_ids`) aborts with no mutation; otherwise the record is appended.
The returned registry is the registry state after the handler. -/
def add_channel (reg : Registry) (v : VerifyResult) :
    Except AddError Destination × Registry :=
  match v with
  | .failed detail => (.error (.resolutionError detail), reg)
  | .resolved chat status =>
    if isAdminStatus status = false then (.error .notAdmin, reg)
    else if (registryIds reg).contains chat.id then (.error .alreadyRegistered, reg)
    else (.ok chat, reg ++ [chat])

/-- The not-found failure of the removal handlers. -/
inductive RemoveError where
  | notFound
deriving DecidableEq, Repr

/-- First-match removal: the `for i, channel in enumerate(...): if p(channel):
pop(i); break` pattern of both removal handlers.  Returns the popped record
and the remaining list (relative order preserved), or `none`. -/
def popFirst (p : Destination → Bool) : Registry → Option (Destination × Registry)
  | [] => none
  | c :: rest =>
    if p c then some (c, rest)
    else
      match popFirst p rest with
      | some (r, rest2) => some (r, c :: rest2)
      | none => none

/-- Python `channel_input.lstrip("@")`: drop every leading alias marker. -/
def lstripAt (s : String) : String :=
  String.mk (s.toList.dropWhile (fun ch => ch == '@'))

/-- The match condition of bot.py `remove_channel` (lines 180-181):
`str(channel["id"]) == channel_input or
channel.get("username") == channel_input.lstrip("@")` —
string-compared id first, then the alias with leading markers stripped. -/
def matchesToken (tok : String) (c : Destination) : Bool :=
  toString c.id == tok || c.username == some (lstripAt tok)

/-- bot.py `remove_channel` (lines 174-197): pop the first channel matching
the token, or report not-found leaving the list untouched. -/
def remove_channel (reg : Registry) (tok : String) :
    Except RemoveError Destination × Registry :=
  match popFirst (matchesToken tok) reg with
  | some (r, reg2) => (.ok r, reg2)
  | none => (.error .notFound, reg)

/-- main.py `removechannel_cmd` (lines 264-277): pop the first channel whose
`id` equals the parsed numeric argument. -/
def removechannel_cmd (reg : Registry) (cid : Int) :
    Except RemoveError Destination × Registry :=
  match popFirst (fun c => c.id == cid) reg with
  | some (r, reg2) => (.ok r, reg2)
  | none => (.error .notFound, reg)

/-- main.py `button_handler` `clear_yes` branch (lines 560-567):
`channel_count = len(CHANNELS); CHANNELS.clear()` — returns the prior count
and the emptied registry. -/
def clear_channels (reg : Registry) : Nat × Registry := (reg.length, [])

/-- main.py `listchannels_cmd` / bot.py `list_channels`: renders the registry
in insertion order; the listed sequence is the registry itself. -/
def list_channels (reg : Registry) : Registry := reg

/-- One operator-triggered registry mutation. -/
inductive RegOp where
  | add (v : VerifyResult)
  | removeById (cid : Int)
  | removeByToken (tok : String)
  | clear

/-- The registry state after one handler invocation. -/
def applyOp (reg : Registry) : RegOp → Registry
  | .add v => (add_channel reg v).2
  | .removeById cid => (removechannel_cmd reg cid).2
  | .removeByToken tok => (remove_channel reg tok).2
  | .clear => (clear_channels reg).2

/-- The registry state after a sequence of handler invocations. -/
def applyOps (reg : Registry) (ops : List RegOp) : Registry :=
  ops.foldl applyOp reg

/-- The uniqueness invariant: no two registered records share an `id`. -/
def uniqueIds (reg : Registry) : Prop := (registryIds reg).Nodup

/-- One failed delivery, recorded by bot.py `broadcast_media` in the
`except TelegramError` arm: the channel it was for and `str(e)`. -/
structure DeliveryOutcome where
  dest : Destination
  errorDetail : String
deriving DecidableEq, Repr

/-- The string bot.py appends to `failed_channels`:
the f-string `"• {channel["title"]}: {str(e)}"` (with the braces filled in). -/
def renderFailure (o : DeliveryOutcome) : String :=
  "• " ++ o.dest.title ++ ": " ++ o.errorDetail

/-- Accumulator of the bot.py broadcast loop: `success`, `failed`,
`failed_channels`, plus the trace of destinations `send` was invoked on
(one entry per loop iteration, in iteration order). -/
structure LoopAcc where
  success : Nat
  failed : Nat
  failedList : List DeliveryOutcome
  attempted : List Destination
deriving DecidableEq, Repr

/-- The `for channel in data["channels"]` loop of bot.py `broadcast_media`
(lines 295-364): invoke `send` once per channel; on success increment
`success`; on a raised `TelegramError` increment `failed` and append the
failure entry; either way continue with the next channel. -/
def broadcastLoop (send : Destination → Except String Unit) :
    List Destination → LoopAcc
  | [] => ⟨0, 0, [], []⟩
  | c :: rest =>
    match send c with
    | .ok _ =>
      ⟨(broadcastLoop send rest).success + 1, (broadcastLoop send rest).failed,
        (broadcastLoop send rest).failedList, c :: (broadcastLoop send rest).attempted⟩
    | .error e =>
      ⟨(broadcastLoop send rest).success, (broadcastLoop send rest).failed + 1,
        ⟨c, e⟩ :: (broadcastLoop send rest).failedList,
        c :: (broadcastLoop send rest).attempted⟩

/-- The aggregate report of one bot.py broadcast: the rendered total is
`len(data["channels"])`, the counters and failure list come from the loop. -/
structure BroadcastReport where
  total : Nat
  success : Nat
  failed : Nat
  failedList : List DeliveryOutcome
  attempted : List Destination
deriving DecidableEq, Repr

/-- bot.py `broadcast_media` (lines 277-374): an empty channel list returns
immediately (the "No channels configured" reply) with no send attempted;
otherwise the loop runs over every channel. -/
def broadcast_media (send : Destination → Except String Unit)
    (channels : List Destination) : BroadcastReport :=
  if channels.isEmpty then ⟨0, 0, 0, [], []⟩
  else
    ⟨channels.length, (broadcastLoop send channels).success,
      (broadcastLoop send channels).failed, (broadcastLoop send channels).failedList,
      (broadcastLoop send channels).attempted⟩

/-- Accumulator of the main.py broadcast loop: `successful`, `failed`, and
the trace of destinations `send` was invoked on. -/
structure FwdAcc where
  successful : Nat
  failed : Nat
  attempted : List Destination
deriving DecidableEq, Repr

/-- The `for channel in CHANNELS` loop of main.py `forward_to_channels`
(lines 354-424): one send per channel, `except Exception: failed += 1;
continue`. -/
def forwardLoop (send : Destination → Except String Unit) :
    List Destination → FwdAcc
  | [] => ⟨0, 0, []⟩
  | c :: rest =>
    match send c with
    | .ok _ =>
      ⟨(forwardLoop send rest).successful + 1, (forwardLoop send rest).failed,
        c :: (forwardLoop send rest).attempted⟩
    | .error _ =>
      ⟨(forwardLoop send rest).successful, (forwardLoop send rest).failed + 1,
        c :: (forwardLoop send rest).attempted⟩

/-- The final status of one main.py broadcast: `total = len(CHANNELS)` plus
the loop counters. -/
structure ForwardReport where
  total : Nat
  successful : Nat
  failed : Nat
  attempted : List Destination
deriving DecidableEq, Repr

/-- main.py `forward_to_channels` (lines 340-433): `if not CHANNELS: return`
before anything is sent; otherwise `total = len(CHANNELS)` and the loop runs
over every channel. -/
def forward_to_channels (send : Destination → Except String Unit)
    (channels : List Destination) : ForwardReport :=
  if channels.isEmpty then ⟨0, 0, 0, []⟩
  else
    ⟨channels.length, (forwardLoop send channels).successful,
      (forwardLoop send channels).failed, (forwardLoop send channels).attempted⟩

/-- The failure entry the bot.py loop records for a channel, if any:
`some` exactly when `send` raises, carrying the channel and `str(e)`. -/
def failOutcome (send : Destination → Except String Unit) (c : Destination) :
    Option DeliveryOutcome :=
  match send c with
  | .ok _ => none
  | .error e => some ⟨c, e⟩

/-- Whether `send` raises for this channel. -/
def sendFailed (send : Destination → Except String Unit) (c : Destination) : Bool :=
  match send c with
  | .ok _ => false
  | .error _ => true

/-- A rich-text formatting span (telegram `MessageEntity`): kind plus the
offset/length of the span.  The dispatch code only passes these through. -/
structure MessageEntity where
  etype : String
  offset : Nat
  length : Nat
deriving DecidableEq, Repr

/-- The fields of the incoming telegram `Message` read by the two dispatch
chains.  `photo` is the list of photo sizes (the code sends
`message.photo[-1].file_id`); each other media field is the `file_id` of the
attachment when present; `caption`, `caption_entities`, `text`, `entities`
are `None` when absent.  Python truthiness: an absent field, an empty photo
list, and an empty string are all falsy. -/
structure Msg where
  photo : List String
  video : Option String
  document : Option String
  audio : Option String
  voice : Option String
  video_note : Option String
  sticker : Option String
  animation : Option String
  text : Option String
  caption : Option String
  caption_entities : Option (List MessageEntity)
  entities : Option (List MessageEntity)
deriving DecidableEq, Repr

/-- The transport call the dispatch chain selects, with the effective
arguments it passes (an omitted keyword argument is `none`, the Python
default). -/
inductive SentAction where
  | sendPhoto (fileId : String) (caption : Option String)
      (captionEntities : Option (List MessageEntity))
  | sendVideo (fileId : String) (caption : Option String)
      (captionEntities : Option (List MessageEntity))
  | sendDocument (fileId : String) (caption : Option String)
      (captionEntities : Option (List MessageEntity))
  | sendAudio (fileId : String) (caption : Option String)
      (captionEntities : Option (List MessageEntity))
  | sendVoice (fileId : String) (caption : Option String)
      (captionEntities : Option (List MessageEntity))
  | sendVideoNote (fileId : String)
  | sendSticker (fileId : String)
  | sendAnimation (fileId : String) (caption : Option String)
      (captionEntities : Option (List MessageEntity))
  | sendMessage (text : String) (entities : Option (List MessageEntity))
  | forwardMessage
deriving DecidableEq, Repr

/-- The `if message.photo: ... elif message.video: ...` chain of bot.py
`broadcast_media` (lines 296-357).  Branch order and argument lists follow
the source: voice passes the caption but omits `caption_entities`;
video-note and sticker pass only the file id; a message matching no branch
(and a text field that is falsy) is forwarded. -/
def dispatch_bot (m : Msg) : SentAction :=
  if let some fid := m.photo.getLast? then
    .sendPhoto fid m.caption m.caption_entities
  else if let some fid := m.video then
    .sendVideo fid m.caption m.caption_entities
  else if let some fid := m.document then
    .sendDocument fid m.caption m.caption_entities
  else if let some fid := m.audio then
    .sendAudio fid m.caption m.caption_entities
  else if let some fid := m.voice then
    .sendVoice fid m.caption none
  else if let some fid := m.video_note then
    .sendVideoNote fid
  else if let some fid := m.sticker then
    .sendSticker fid
  else if let some fid := m.animation then
    .sendAnimation fid m.caption m.caption_entities
  else if let some t := m.text then
    if t.isEmpty then .forwardMessage else .sendMessage t m.entities
  else .forwardMessage

/-- Python `a or b` on an optional string against a fallback: the left value
when truthy (present and nonempty), the fallback otherwise. -/
def pyOrStr (a : Option String) (b : String) : String :=
  match a with
  | some s => if s.isEmpty then b else s
  | none => b

/-- Python `a or b` on optional entity lists: the left list when truthy
(present and nonempty), the right operand as-is otherwise. -/
def pyOrEnt (a b : Option (List MessageEntity)) : Option (List MessageEntity) :=
  match a with
  | some l => if l.isEmpty then b else some l
  | none => b

/-- The `if message.photo: ... elif ...` chain of main.py
`forward_to_channels` (lines 355-417).  There is no video-note branch; the
final arm sends `message.text or message.caption or "📢 Broadcast"` with
`message.entities or message.caption_entities`. -/
def dispatch_main (m : Msg) : SentAction :=
  if let some fid := m.photo.getLast? then
    .sendPhoto fid m.caption m.caption_entities
  else if let some fid := m.video then
    .sendVideo fid m.caption m.caption_entities
  else if let some fid := m.document then
    .sendDocument fid m.caption m.caption_entities
  else if let some fid := m.audio then
    .sendAudio fid m.caption m.caption_entities
  else if let some fid := m.voice then
    .sendVoice fid m.caption m.caption_entities
  else if let some fid := m.sticker then
    .sendSticker fid
  else if let some fid := m.animation then
    .sendAnimation fid m.caption m.caption_entities
  else
    .sendMessage (pyOrStr m.text (pyOrStr m.caption "📢 Broadcast"))
      (pyOrEnt m.entities m.caption_entities)

/-- A message with every field absent. -/
def emptyMsg : Msg :=
  ⟨[], none, none, none, none, none, none, none, none, none, none, none⟩

/-- A photo message: one photo size, optional caption and caption spans. -/
def photoMsg (fid : String) (cap : Option String)
    (ce : Option (List MessageEntity)) : Msg :=
  { emptyMsg with photo := [fid], caption := cap, caption_entities := ce }

/-- A video message. -/
def videoMsg (fid : String) (cap : Option String)
    (ce : Option (List MessageEntity)) : Msg :=
  { emptyMsg with video := some fid, caption := cap, caption_entities := ce }

/-- A document message. -/
def documentMsg (fid : String) (cap : Option String)
    (ce : Option (List MessageEntity)) : Msg :=
  { emptyMsg with document := some fid, caption := cap, caption_entities := ce }

/-- An audio message. -/
def audioMsg (fid : String) (cap : Option String)
    (ce : Option (List MessageEntity)) : Msg :=
  { emptyMsg with audio := some fid, caption := cap, caption_entities := ce }

/-- A voice message (voice notes may carry a caption in the source domain). -/
def voiceMsg (fid : String) (cap : Option String)
    (ce : Option (List MessageEntity)) : Msg :=
  { emptyMsg with voice := some fid, caption := cap, caption_entities := ce }

/-- A video-note message (the source domain attaches no caption to these). -/
def videoNoteMsg (fid : String) : Msg :=
  { emptyMsg with video_note := some fid }

/-- A sticker message (no caption in the source domain). -/
def stickerMsg (fid : String) : Msg :=
  { emptyMsg with sticker := some fid }

/-- An animation message. -/
def animationMsg (fid : String) (cap : Option String)
    (ce : Option (List MessageEntity)) : Msg :=
  { emptyMsg with animation := some fid, caption := cap, caption_entities := ce }

/-- A plain text message with optional formatting spans. -/
def textMsg (t : String) (es : Option (List MessageEntity)) : Msg :=
  { emptyMsg with text := some t, entities := es }

/-- A Python-side JSON value, as produced by `json.load`. -/
inductive PyJson where
  | obj (fields : List (String × PyJson))
  | arr (elems : List PyJson)
  | str (s : String)
  | intVal (n : Int)
  | boolVal (b : Bool)
  | null

/-- The default structure `{"channels": []}` of bot.py `load_channels`. -/
def emptyChannelsData : PyJson := .obj [("channels", .arr [])]

/-- State of `channels.json` when bot.py `load_channels` runs: absent, or
present with reading raising `IOError`, or present with `json.load` raising
`JSONDecodeError`, or present and parsed to a value. -/
inductive ChannelsFileState where
  | absent
  | ioError
  | decodeError
  | parsed (v : PyJson)

/-- bot.py `load_channels` (lines 30-38): a missing file returns the default
structure; `JSONDecodeError` and `IOError` are caught and also return the
default; a successfully parsed value is returned as-is. -/
def load_channels : ChannelsFileState → PyJson
  | .absent => emptyChannelsData
  | .ioError => emptyChannelsData
  | .decodeError => emptyChannelsData
  | .parsed v => v

/-- A send function used as a concrete instance: fails on the channel with
id 2 (destination B below) with detail "boom", succeeds elsewhere. -/
def sendW : Destination → Except String Unit :=
  fun d => if d.id = 2 then .error "boom" else .ok ()

/-- A concrete registered channel with alias "news". -/
def newsDest : Destination := ⟨-1001, "News Channel", some "news"⟩

/-- The bot.py loop invokes `send` on every channel exactly once, in list
order, regardless of which sends fail. -/
theorem broadcastLoop_attempted (send : Destination → Except String Unit) :
    ∀ channels : List Destination,
      (broadcastLoop send channels).attempted = channels := by
  intro channels
  induction channels with
  | nil => rfl
  | cons c rest ih => cases h : send c <;> simp [broadcastLoop, h, ih]

/-- The bot.py loop counters always add up to the number of channels. -/
theorem broadcastLoop_counts (send : Destination → Except String Unit) :
    ∀ channels : List Destination,
      (broadcastLoop send channels).success + (broadcastLoop send channels).failed
        = channels.length := by
  intro channels
  induction channels with
  | nil => rfl
  | cons c rest ih => cases h : send c <;> simp [broadcastLoop, h] <;> omega

/-- The bot.py failure list is exactly the failure entry of each channel
whose send raised, in list order. -/
theorem broadcastLoop_failedList (send : Destination → Except String Unit) :
    ∀ channels : List Destination,
      (broadcastLoop send channels).failedList
        = channels.filterMap (failOutcome send) := by
  intro channels
  induction channels with
  | nil => rfl
  | cons c rest ih =>
    cases h : send c <;> simp [broadcastLoop, h, failOutcome, ih]

/-- Projecting the failure entries to channel ids gives the ids of the
failing channels, in list order. -/
theorem failOutcome_ids (send : Destination → Except String Unit) :
    ∀ channels : List Destination,
      ((channels.filterMap (failOutcome send)).map (fun o => o.dest.id))
        = (channels.filter (sendFailed send)).map (fun c => c.id) := by
  intro channels
  induction channels with
  | nil => rfl
  | cons c rest ih =>
    cases h : send c <;> simp [failOutcome, sendFailed, h, ih]

/-- The main.py loop invokes `send` on every channel exactly once, in list
order, regardless of which sends fail. -/
theorem forwardLoop_attempted (send : Destination → Except String Unit) :
    ∀ channels : List Destination,
      (forwardLoop send channels).attempted = channels := by
  intro channels
  induction channels with
  | nil => rfl
  | cons c rest ih => cases h : send c <;> simp [forwardLoop, h, ih]

/-- The main.py loop counters always add up to the number of channels. -/
theorem forwardLoop_counts (send : Destination → Except String Unit) :
    ∀ channels : List Destination,
      (forwardLoop send channels).successful + (forwardLoop send channels).failed
        = channels.length := by
  intro channels
  induction channels with
  | nil => rfl
  | cons c rest ih => cases h : send c <;> simp [forwardLoop, h] <;> omega

/-- First-match removal yields a sublist (order of survivors preserved). -/
theorem popFirst_sublist (p : Destination → Bool) :
    ∀ (reg reg2 : Registry) (r : Destination),
      popFirst p reg = some (r, reg2) → List.Sublist reg2 reg := by
  intro reg
  induction reg with
  | nil => intro reg2 r h; simp [popFirst] at h
  | cons c rest ih =>
    intro reg2 r h
    by_cases hc : p c
    · simp [popFirst, hc] at h
      rw [← h.2]
      exact List.sublist_cons_self c rest
    · simp only [popFirst, hc, if_false] at h
      cases h2 : popFirst p rest with
      | none => rw [h2] at h; simp at h
      | some pr =>
        rw [h2] at h
        simp at h
        rw [← h.2]
        exact List.Sublist.cons₂ c (ih pr.2 pr.1 (by rw [h2]))

/-- If no entry before `c` matches and `c` matches, first-match removal pops
exactly `c` and concatenates what surrounded it. -/
theorem popFirst_eq_first (p : Destination → Bool) :
    ∀ (pre : Registry) (c : Destination) (post : Registry),
      (∀ x ∈ pre, p x = false) → p c = true →
      popFirst p (pre ++ c :: post) = some (c, pre ++ post) := by
  intro pre
  induction pre with
  | nil => intro c post _ hc; simp [popFirst, hc]
  | cons a rest ih =>
    intro c post hpre hc
    have ha : p a = false := hpre a (by simp)
    simp [popFirst, ha, ih c post (fun x hx => hpre x (by simp [hx])) hc]

/-- If no entry matches, first-match removal finds nothing. -/
theorem popFirst_eq_none (p : Destination → Bool) :
    ∀ reg : Registry, (∀ x ∈ reg, p x = false) → popFirst p reg = none := by
  intro reg
  induction reg with
  | nil => intro _; rfl
  | cons a rest ih =>
    intro hall
    have ha : p a = false := hall a (by simp)
    simp [popFirst, ha, ih (fun x hx => hall x (by simp [hx]))]

/-- Every single handler invocation preserves the id-uniqueness invariant. -/
theorem applyOp_preserves_uniqueIds (reg : Registry) (op : RegOp)
    (h : uniqueIds reg) : uniqueIds (applyOp reg op) := by
  cases op with
  | add v =>
    cases v with
    | failed detail => simpa [applyOp, add_channel] using h
    | resolved chat status =>
      cases h1 : isAdminStatus status with
      | false => simpa [applyOp, add_channel, h1] using h
      | true =>
        cases h2 : (registryIds reg).contains chat.id with
        | true =>
          have hmem : chat.id ∈ registryIds reg := List.elem_iff.mp h2
          simpa [applyOp, add_channel, h1, hmem] using h
        | false =>
          have h2x : chat.id ∉ registryIds reg := by
            intro hmem
            have hc : (registryIds reg).contains chat.id = true :=
              List.elem_iff.mpr hmem
            rw [h2] at hc
            cases hc
          have hgoal : uniqueIds (reg ++ [chat]) := by
            unfold uniqueIds registryIds at h ⊢
            rw [List.map_append, List.nodup_append]
            refine ⟨h, List.nodup_singleton _, ?_⟩
            intro x hx hx1
            simp only [List.map_cons, List.map_nil, List.mem_singleton] at hx1
            subst hx1
            exact h2x hx
          simpa [applyOp, add_channel, h1, h2x] using hgoal
  | removeById cid =>
    cases h2 : popFirst (fun c => c.id == cid) reg with
    | none => simpa [applyOp, removechannel_cmd, h2] using h
    | some pr =>
      simp only [applyOp, removechannel_cmd, h2]
      exact List.Nodup.sublist
        ((popFirst_sublist _ reg pr.2 pr.1 (by rw [h2])).map _) h
  | removeByToken tok =>
    cases h2 : popFirst (matchesToken tok) reg with
    | none => simpa [applyOp, remove_channel, h2] using h
    | some pr =>
      simp only [applyOp, remove_channel, h2]
      exact List.Nodup.sublist
        ((popFirst_sublist _ reg pr.2 pr.1 (by rw [h2])).map _) h
  | clear => simp [applyOp, clear_channels, uniqueIds, registryIds]

/-- Every sequence of handler invocations preserves the invariant. -/
theorem applyOps_preserves_uniqueIds (ops : List RegOp) :
    ∀ reg : Registry, uniqueIds reg → uniqueIds (applyOps reg ops) := by
  induction ops with
  | nil => intro reg h; exact h
  | cons op rest ih =>
    intro reg h
    exact ih (applyOp reg op) (applyOp_preserves_uniqueIds reg op h)

/-- Claim C1: for destinations [A, B, C] and any send function, if sending to
B raises, the broadcast loop still invokes send for every listed destination
exactly once (the attempted trace is exactly [A, B, C]), the failure is
recorded as an outcome carrying B and the error detail, and the entry
rendered into the failure report carries B's display name and the detail. -/
theorem broadcast_survives_failure (A B C : Destination)
    (send : Destination → Except String Unit) (e : String)
    (hB : send B = .error e) :
    (broadcast_media send [A, B, C]).attempted = [A, B, C] ∧
    (⟨B, e⟩ : DeliveryOutcome) ∈ (broadcast_media send [A, B, C]).failedList ∧
    ("• " ++ B.title ++ ": " ++ e) ∈
      ((broadcast_media send [A, B, C]).failedList.map renderFailure) := by
  have hmem : (⟨B, e⟩ : DeliveryOutcome) ∈
      (broadcast_media send [A, B, C]).failedList := by
    show (⟨B, e⟩ : DeliveryOutcome) ∈ (broadcastLoop send [A, B, C]).failedList
    rw [broadcastLoop_failedList send [A, B, C]]
    exact List.mem_filterMap.mpr ⟨B, by simp, by simp [failOutcome, hB]⟩
  refine ⟨?_, hmem, List.mem_map.mpr ⟨⟨B, e⟩, hmem, rfl⟩⟩
  show (broadcastLoop send [A, B, C]).attempted = [A, B, C]
  exact broadcastLoop_attempted send [A, B, C]

/-- Witness for C1: with a concrete three-channel registry and a send
function failing exactly on the middle channel (id 2), all three channels
are attempted and the middle channel's failure is recorded and rendered. -/
theorem broadcast_survives_failure_witness :
    (broadcast_media sendW [⟨1, "A", none⟩, ⟨2, "B", none⟩, ⟨3, "Ch", none⟩]).attempted
        = [⟨1, "A", none⟩, ⟨2, "B", none⟩, ⟨3, "Ch", none⟩] ∧
    (⟨⟨2, "B", none⟩, "boom"⟩ : DeliveryOutcome) ∈
      (broadcast_media sendW [⟨1, "A", none⟩, ⟨2, "B", none⟩, ⟨3, "Ch", none⟩]).failedList ∧
    ("• " ++ "B" ++ ": " ++ "boom") ∈
      ((broadcast_media sendW
        [⟨1, "A", none⟩, ⟨2, "B", none⟩, ⟨3, "Ch", none⟩]).failedList.map renderFailure) :=
  broadcast_survives_failure ⟨1, "A", none⟩ ⟨2, "B", none⟩ ⟨3, "Ch", none⟩ sendW "boom" rfl

/-- Claim C2: over any list of N destinations and any send function, the
report satisfies succeeded + failed = total = N, the failure list of the
bot.py loop is exactly the per-channel failure entry of each channel whose
send raised, in registry order (hence its projection to ids lists the
failing destinations' ids in that order), and the main.py loop satisfies
the same counting law. -/
theorem broadcast_report_counts (send : Destination → Except String Unit)
    (channels : List Destination) :
    (broadcast_media send channels).success + (broadcast_media send channels).failed
        = channels.length ∧
    (broadcast_media send channels).total = channels.length ∧
    (broadcast_media send channels).failedList = channels.filterMap (failOutcome send) ∧
    (broadcast_media send channels).failedList.map (fun o => o.dest.id)
        = (channels.filter (sendFailed send)).map (fun c => c.id) ∧
    (forward_to_channels send channels).successful + (forward_to_channels send channels).failed
        = channels.length ∧
    (forward_to_channels send channels).total = channels.length := by
  cases channels with
  | nil => exact ⟨rfl, rfl, rfl, rfl, rfl, rfl⟩
  | cons c rest =>
    refine ⟨broadcastLoop_counts send (c :: rest), rfl,
      broadcastLoop_failedList send (c :: rest), ?_,
      forwardLoop_counts send (c :: rest), rfl⟩
    show (broadcastLoop send (c :: rest)).failedList.map (fun o => o.dest.id)
        = ((c :: rest).filter (sendFailed send)).map (fun x => x.id)
    rw [broadcastLoop_failedList send (c :: rest)]
    exact failOutcome_ids send (c :: rest)

/-- Claim C3: every sequence of Add, Remove (by id or by token), and Clear
handler invocations starting from the empty registry yields a registry in
which no two records share an id. -/
theorem registry_unique_ids (ops : List RegOp) : uniqueIds (applyOps [] ops) :=
  applyOps_preserves_uniqueIds ops [] List.nodup_nil

/-- Claim C4: whenever the verification reports a membership status other
than administrator or creator, the add handler refuses with the not-admin
error and returns the registry exactly unchanged, regardless of the chat
payload or the registry contents. -/
theorem add_rejected_when_not_admin (reg : Registry) (chat : Destination)
    (status : String) (h : isAdminStatus status = false) :
    add_channel reg (.resolved chat status) = (.error .notAdmin, reg) := by
  simp [add_channel, h]

/-- Witness for C4: a concrete add with membership status "member" is
refused with the not-admin error and the one-entry registry is unchanged. -/
theorem add_rejected_when_not_admin_witness :
    add_channel [⟨5, "Old", none⟩] (.resolved ⟨7, "New", none⟩ "member")
      = (.error .notAdmin, [⟨5, "Old", none⟩]) :=
  add_rejected_when_not_admin [⟨5, "Old", none⟩] ⟨7, "New", none⟩ "member" (by decide)

/-- Claim C5: when verification passes but the resolved chat id is already
registered, the add handler fails with the already-registered error, appends
nothing, and leaves the registry (hence its length) unchanged. -/
theorem add_rejected_when_duplicate (reg : Registry) (chat : Destination)
    (status : String) (hadmin : isAdminStatus status = true)
    (hdup : (registryIds reg).contains chat.id = true) :
    add_channel reg (.resolved chat status) = (.error .alreadyRegistered, reg) ∧
    ((add_channel reg (.resolved chat status)).2).length = reg.length := by
  have hmem : chat.id ∈ registryIds reg := List.elem_iff.mp hdup
  have hfst : add_channel reg (.resolved chat status)
      = (.error .alreadyRegistered, reg) := by
    simp [add_channel, hadmin, hmem]
  exact ⟨hfst, by rw [hfst]⟩

/-- Witness for C5: re-adding id 7 to a registry already holding id 7, with
admin status verified, fails with the already-registered error and keeps the
registry and its length unchanged. -/
theorem add_rejected_when_duplicate_witness :
    add_channel [⟨7, "Old", none⟩] (.resolved ⟨7, "Again", some "o"⟩ "administrator")
      = (.error .alreadyRegistered, [⟨7, "Old", none⟩]) ∧
    ((add_channel [⟨7, "Old", none⟩]
        (.resolved ⟨7, "Again", some "o"⟩ "administrator")).2).length
      = ([⟨7, "Old", none⟩] : Registry).length :=
  add_rejected_when_duplicate [⟨7, "Old", none⟩] ⟨7, "Again", some "o"⟩ "administrator"
    (by decide) (by decide)

/-- Claim C6: the token-removal handler tests each record with the source
predicate (string-compared id first, then the alias with leading markers
stripped) and pops the first record that matches, keeping the rest in order;
when no record matches it fails with not-found and returns the registry
exactly unchanged. -/
theorem remove_channel_matching (reg : Registry) (tok : String) :
    (∀ pre c post, reg = pre ++ c :: post →
        (∀ x ∈ pre, matchesToken tok x = false) →
        matchesToken tok c = true →
        remove_channel reg tok = (.ok c, pre ++ post)) ∧
    ((∀ x ∈ reg, matchesToken tok x = false) →
        remove_channel reg tok = (.error .notFound, reg)) := by
  constructor
  · intro pre c post hreg hpre hc
    subst hreg
    simp [remove_channel, popFirst_eq_first (matchesToken tok) pre c post hpre hc]
  · intro hall
    simp [remove_channel, popFirst_eq_none (matchesToken tok) reg hall]

/-- Witness for C6: a registry holding one record with alias "news" is
cleared by the token "@news" (the marker is stripped before comparing), and
a token matching nothing yields not-found with the registry unchanged. -/
theorem remove_channel_matching_witness :
    remove_channel [newsDest] "@news" = (.ok newsDest, []) ∧
    remove_channel [newsDest] "nothere" = (.error .notFound, [newsDest]) := by
  constructor
  · exact (remove_channel_matching [newsDest] "@news").1 [] newsDest [] rfl
      (by intro x hx; simp at hx) (by decide)
  · exact (remove_channel_matching [newsDest] "nothere").2 (by decide)

/-- Claim C7: both broadcast entry points, given an empty destination list,
return immediately with total = 0 and an empty attempted trace — the send
function is never invoked. -/
theorem broadcast_empty_registry (send : Destination → Except String Unit) :
    broadcast_media send [] = ⟨0, 0, 0, [], []⟩ ∧
    forward_to_channels send [] = ⟨0, 0, 0, []⟩ :=
  ⟨rfl, rfl⟩

/-- Claim C8: clearing a registry of size K returns K as the prior count and
leaves the registry empty, so listing afterwards returns the empty
sequence. -/
theorem clear_then_list_empty (reg : Registry) :
    (clear_channels reg).1 = reg.length ∧
    (clear_channels reg).2 = [] ∧
    list_channels (clear_channels reg).2 = [] :=
  ⟨rfl, rfl, rfl⟩

/-- Counterexample to claim C9 as stated: the bot.py chain dispatches a
voice message with a caption and formatting spans to the voice primitive but
passes no caption entities (the spans are dropped, not carried through
unchanged), and the main.py chain has no video-note branch at all — a
video-note message falls to the text arm and is sent as the placeholder
text. -/
theorem voice_entities_not_carried :
    dispatch_bot (voiceMsg "vfile" (some "hello")
        (some [⟨"bold", 0, 5⟩])) = .sendVoice "vfile" (some "hello") none ∧
    (voiceMsg "vfile" (some "hello") (some [⟨"bold", 0, 5⟩])).caption_entities
        = some [⟨"bold", 0, 5⟩] ∧
    dispatch_main (videoNoteMsg "nfile") = .sendMessage "📢 Broadcast" none ∧
    (some [(⟨"bold", 0, 5⟩ : MessageEntity)] : Option (List MessageEntity)) ≠ none :=
  ⟨rfl, rfl, rfl, by simp⟩

/-- Amended claim C9: for photo, video, document, audio, and animation the
send mapping dispatches to the matching typed primitive carrying caption and
caption spans unchanged (in both variants), and a nonempty text body goes to
the message primitive with its spans; voice goes to the voice primitive with
its caption, but the bot.py variant omits the caption spans while the
main.py variant carries them; sticker (and, in bot.py, video-note) carry
only the media reference; a message matching no branch is forwarded by
bot.py, while main.py substitutes the literal placeholder text rather than
failing — in particular a video-note in main.py becomes the placeholder. -/
theorem dispatch_mapping_amended (fid t : String) (cap : Option String)
    (ce es : Option (List MessageEntity)) :
    dispatch_bot (photoMsg fid cap ce) = .sendPhoto fid cap ce ∧
    dispatch_bot (videoMsg fid cap ce) = .sendVideo fid cap ce ∧
    dispatch_bot (documentMsg fid cap ce) = .sendDocument fid cap ce ∧
    dispatch_bot (audioMsg fid cap ce) = .sendAudio fid cap ce ∧
    dispatch_bot (voiceMsg fid cap ce) = .sendVoice fid cap none ∧
    dispatch_bot (videoNoteMsg fid) = .sendVideoNote fid ∧
    dispatch_bot (stickerMsg fid) = .sendSticker fid ∧
    dispatch_bot (animationMsg fid cap ce) = .sendAnimation fid cap ce ∧
    dispatch_bot (textMsg t es)
        = (if t.isEmpty then .forwardMessage else .sendMessage t es) ∧
    dispatch_bot emptyMsg = .forwardMessage ∧
    dispatch_main (photoMsg fid cap ce) = .sendPhoto fid cap ce ∧
    dispatch_main (videoMsg fid cap ce) = .sendVideo fid cap ce ∧
    dispatch_main (documentMsg fid cap ce) = .sendDocument fid cap ce ∧
    dispatch_main (audioMsg fid cap ce) = .sendAudio fid cap ce ∧
    dispatch_main (voiceMsg fid cap ce) = .sendVoice fid cap ce ∧
    dispatch_main (stickerMsg fid) = .sendSticker fid ∧
    dispatch_main (animationMsg fid cap ce) = .sendAnimation fid cap ce ∧
    dispatch_main (videoNoteMsg fid) = .sendMessage "📢 Broadcast" none ∧
    dispatch_main (textMsg t es)
        = .sendMessage (pyOrStr (some t) "📢 Broadcast") (pyOrEnt es none) :=
  ⟨rfl, rfl, rfl, rfl, rfl, rfl, rfl, rfl, rfl, rfl, rfl, rfl, rfl, rfl, rfl,
    rfl, rfl, rfl, rfl⟩

/-- Claim C10: whatever the state of the channels file — absent, unreadable
(IOError), or holding text that is not valid JSON (JSONDecodeError) — the
loader returns the default well-formed structure with an empty channel list
instead of raising. -/
theorem load_channels_never_fails :
    load_channels .absent = emptyChannelsData ∧
    load_channels .ioError = emptyChannelsData ∧
    load_channels .decodeError = emptyChannelsData :=
  ⟨rfl, rfl, rfl⟩

end ChannelManager
